import Mathlib

/-!
Verification development for the `opa-rs` repository.

This file shallowly embeds the host-side logic of
`crates/opa/src/wasm/mod.rs` (the OPA WASM evaluation engine) and
`crates/opa/src/bundle/mod.rs` (bundle loading), and proves properties
about the embedded definitions.

Modelling conventions:
- The guest WASM module is external code; its exports are modelled as an
  abstract `Guest` structure of total functions over a `GuestState`
  (linear memory as a byte list plus the guest heap pointer).  The two
  heap-pointer exports (`opa_heap_ptr_get` / `opa_heap_ptr_set`) are given
  their documented semantics (read / write the heap pointer), because the
  host relies on exactly that contract.
- Every host operation additionally returns the list of guest calls it
  performed (`List GuestCall`), so that claims about which guest exports
  are invoked (e.g. `opa_free`) can be stated.
- Fallible host code returns an `Outcome`: `ok`, `err` (an `anyhow`
  error returned to the caller) or `panicked` (a Rust panic, e.g. the
  `unwrap` in `Opa::json_at` or a slice-index-out-of-range).
- `serde_json` serialization is abstracted: inputs and datasets are taken
  as their already-serialized byte lists, and deserialization of the
  output documents is a parameter `dec : List Nat → Option (List α)`
  standing for `serde_json::from_slice::<Vec<OpaOutput<O>>>` (with the
  `result` fields already projected out, in order); `none` is a serde
  error.  Entrypoint names are `List Char`.
-/

namespace OpaRs

/-- The state of the guest instance observable by the host: the linear
memory (`env_buffer`, a byte list) and the guest heap pointer. -/
structure GuestState where
  heapPtr : Nat
  mem : List Nat
  deriving DecidableEq

/-- One call from the host into a guest export. -/
inductive GuestCall where
  | heapPtrGet
  | heapPtrSet (addr : Nat)
  | malloc (len : Nat)
  | jsonParse (addr len : Nat)
  | jsonDump (addr : Nat)
  | free (addr : Nat)
  | opaEval (entrypointId dataAddr inputAddr inputLen heapPtr : Nat)
  | evalCtxNew
  | evalCtxSetData (ctx addr : Nat)
  | evalCtxSetInput (ctx addr : Nat)
  | evalCtxSetEntrypoint (ctx id : Nat)
  | evalRun (ctx : Nat)
  | evalCtxGetResult (ctx : Nat)
  deriving DecidableEq

/-- Is this guest call an invocation of the guest `opa_free` export? -/
def GuestCall.isFree : GuestCall → Bool
  | .free _ => true
  | _ => false

/-- The behaviour of the guest module's exports, abstract except for the
heap-pointer pair (modelled directly on `GuestState`).  Each function
takes its arguments and the current guest state and returns its result
and the updated guest state. -/
structure Guest where
  malloc : Nat → GuestState → Nat × GuestState
  jsonParse : Nat → Nat → GuestState → Nat × GuestState
  jsonDump : Nat → GuestState → Nat × GuestState
  opaEval : Nat → Nat → Nat → Nat → Nat → GuestState → Nat × GuestState
  evalCtxNew : GuestState → Nat × GuestState
  evalCtxSetData : Nat → Nat → GuestState → GuestState
  evalCtxSetInput : Nat → Nat → GuestState → GuestState
  evalCtxSetEntrypoint : Nat → Nat → GuestState → GuestState
  evalRun : Nat → GuestState → GuestState
  evalCtxGetResult : Nat → GuestState → Nat × GuestState
  free : Nat → GuestState → GuestState

/-- The result of a fallible host operation: success, an error value
returned to the caller (`anyhow::Error`, carried as its message), or a
Rust panic. -/
inductive Outcome (α : Type) where
  | ok (a : α)
  | err (msg : String)
  | panicked (msg : String)
  deriving DecidableEq

/-- The `Opa` struct of `wasm/mod.rs`: instantiated guest state plus the
host bookkeeping fields (entrypoint table, detected ABI minor version,
dataset checkpoint, dataset address, input checkpoint). -/
structure Opa where
  guest : GuestState
  entrypoints : List (List Char × Nat)
  minorVersion : Nat
  dataHeapPtr : Nat
  dataAddr : Option Nat
  inputHeapPtr : Nat
  deriving DecidableEq

/-- Model: `null_terminated_slice` of `wasm/mod.rs`: the bytes strictly before
the first zero byte, or `none` when no zero byte exists. -/
def null_terminated_slice (slice : List Nat) : Option (List Nat) :=
  if slice.contains 0 then some (slice.takeWhile (fun b => !(b == 0))) else none

/-- Model: `Opa::bytes_at`: read the null-terminated byte range starting at
`addr` in guest memory. -/
def Opa.bytes_at (o : Opa) (addr : Nat) : Option (List Nat) :=
  null_terminated_slice (o.guest.mem.drop addr)

/-- Host-side byte copy into guest memory at `addr` (bounds are the
caller's concern, mirroring Rust slice indexing). -/
def writeMem (mem : List Nat) (addr : Nat) (bytes : List Nat) : List Nat :=
  mem.take addr ++ bytes ++ mem.drop (addr + bytes.length)

/-- Model: `round_up` of `wasm/mod.rs`: number of 64 KiB pages covering `bytes`. -/
def round_up (bytes : Nat) : Nat :=
  bytes / (64 * 1024) + (if bytes % (64 * 1024) != 0 then 1 else 0)

/-- Model: `Memory::grow`: append `pages` zeroed 64 KiB pages. -/
def growMem (mem : List Nat) (pages : Nat) : List Nat :=
  mem ++ List.replicate (pages * (64 * 1024)) 0

/-- The character map underlying `str::replace('.', "/")`. -/
def dotToSlash (c : Char) : Char := if c = '.' then '/' else c

/-- Model: `entrypoint.replace('.', "/")`: a single-character pattern replace is
a character map. -/
def replace_dots (e : List Char) : List Char := e.map dotToSlash

/-- The normalization in `Opa::entrypoint_id`: when the name contains a
dot, replace every dot by a slash; otherwise the name is used as is. -/
def normalize_entrypoint (e : List Char) : List Char :=
  if e.contains '.' then replace_dots e else e

/-- Error message of `Opa::eval_once` / `EvalContext::create` when
`set_data` was never called. -/
def noDataMsg : String := "no data provided, `set_data` must be called at least once first"

/-- Stand-in message for a `serde_json` deserialization error. -/
def deserializeErrMsg : String := "error deserializing JSON output"

/-- Model: `Opa::entrypoint_id`: normalize the name and look it up in the
entrypoint table (a `HashMap`, modelled as an association list). -/
def Opa.entrypoint_id (o : Opa) (entrypoint : List Char) : Outcome Nat :=
  let e := normalize_entrypoint entrypoint
  match o.entrypoints.lookup e with
  | some id => .ok id
  | none => .err ("invalid entrypoint `" ++ String.mk e ++ "`")

/-- Model: `Opa::heap_ptr`: call the guest `opa_heap_ptr_get` export. -/
def Opa.heap_ptr (o : Opa) : Nat × Opa × List GuestCall :=
  (o.guest.heapPtr, o, [GuestCall.heapPtrGet])

/-- Model: `Opa::set_heap_ptr`: call the guest `opa_heap_ptr_set` export. -/
def Opa.set_heap_ptr (o : Opa) (addr : Nat) : Opa × List GuestCall :=
  ({ o with guest := { o.guest with heapPtr := addr } }, [GuestCall.heapPtrSet addr])

/-- Model: `Opa::alloc`: call the guest `opa_malloc` export then take the
mutable slice `[addr..addr + len]`; Rust panics when the slice is out of
bounds of the current memory. -/
def Opa.alloc (g : Guest) (o : Opa) (len : Nat) : Outcome Nat × Opa × List GuestCall :=
  let pr := g.malloc len o.guest
  if pr.1 + len ≤ pr.2.mem.length then
    (.ok pr.1, { o with guest := pr.2 }, [GuestCall.malloc len])
  else
    (.panicked "slice index out of range", { o with guest := pr.2 }, [GuestCall.malloc len])

/-- Model: `Opa::write_bytes`: allocate guest memory and copy the bytes in. -/
def Opa.write_bytes (g : Guest) (o : Opa) (bytes : List Nat) :
    Outcome Nat × Opa × List GuestCall :=
  let a := Opa.alloc g o bytes.length
  match a.1 with
  | .ok addr =>
    (.ok addr,
     { a.2.1 with guest := { a.2.1.guest with mem := writeMem a.2.1.guest.mem addr bytes } },
     a.2.2)
  | .err m => (.err m, a.2.1, a.2.2)
  | .panicked m => (.panicked m, a.2.1, a.2.2)

/-- Model: `Opa::write_json`: write the serialized bytes, then call the guest
`opa_json_parse` export on them, returning the parsed document address.
The argument `json` is the `serde_json::to_vec` image of the value. -/
def Opa.write_json (g : Guest) (o : Opa) (json : List Nat) :
    Outcome Nat × Opa × List GuestCall :=
  let w := Opa.write_bytes g o json
  match w.1 with
  | .ok bytes_addr =>
    let pr := g.jsonParse bytes_addr json.length w.2.1.guest
    (.ok pr.1, { w.2.1 with guest := pr.2 }, w.2.2 ++ [GuestCall.jsonParse bytes_addr json.length])
  | .err m => (.err m, w.2.1, w.2.2)
  | .panicked m => (.panicked m, w.2.1, w.2.2)

/-- Model: `Opa::set_data`: rewind the guest heap pointer to the dataset
checkpoint, write the new dataset, record its address, and re-snapshot
the heap pointer as the new input checkpoint.  (The source has no
ABI-version branch here.) -/
def Opa.set_data (g : Guest) (o : Opa) (data_json : List Nat) :
    Outcome Unit × Opa × List GuestCall :=
  let sh := Opa.set_heap_ptr o o.dataHeapPtr
  let w := Opa.write_json g sh.1 data_json
  match w.1 with
  | .ok addr =>
    let o2 : Opa := { w.2.1 with dataAddr := some addr }
    let hp := Opa.heap_ptr o2
    (.ok (), { hp.2.1 with inputHeapPtr := hp.1 }, sh.2 ++ w.2.2 ++ hp.2.2)
  | .err m => (.err m, w.2.1, sh.2 ++ w.2.2)
  | .panicked m => (.panicked m, w.2.1, sh.2 ++ w.2.2)

/-- Model: `Opa::free`: call the guest `opa_free` export.  In the source this
function is `#[allow(dead_code)]` and is never called anywhere (the
comment above it reads "We manually reset the heap pointer, so this is
not needed"). -/
def Opa.free (g : Guest) (o : Opa) (addr : Nat) : Opa × List GuestCall :=
  ({ o with guest := g.free addr o.guest }, [GuestCall.free addr])

/-- Model: `Opa::json_at`: call the guest `opa_json_dump` export, then
`self.bytes_at(json_addr).unwrap()` — a missing null terminator panics —
then deserialize; a serde failure is returned as an error. -/
def Opa.json_at {β : Type} (g : Guest) (dec : List Nat → Option β) (o : Opa) (addr : Nat) :
    Outcome β × Opa × List GuestCall :=
  let pr := g.jsonDump addr o.guest
  let o1 : Opa := { o with guest := pr.2 }
  match Opa.bytes_at o1 pr.1 with
  | none => (.panicked "unwrap on a None value", o1, [GuestCall.jsonDump addr])
  | some payload =>
    match dec payload with
    | none => (.err deserializeErrMsg, o1, [GuestCall.jsonDump addr])
    | some v => (.ok v, o1, [GuestCall.jsonDump addr])

/-- Model: `usize::try_from(i : i32)`: succeeds exactly for non-negative values. -/
def usize_try_from_i32 (i : Int) : Option Nat :=
  if 0 ≤ i then some i.toNat else none

/-- The minor-version detection of `Opa::init`: read the optional
`opa_wasm_abi_minor_version` i32 global (`none` when absent or not an
i32), convert with `try_into().ok()`, and default to `0`. -/
def detect_minor_version (global : Option Int) : Nat :=
  (global.bind usize_try_from_i32).getD 0

/-- The memory preparation of `Opa::eval_once`: grow the memory in whole
pages when the input does not fit after the input checkpoint, then copy
the serialized input bytes at the input checkpoint. -/
def eval_once_mem (mem : List Nat) (input_idx : Nat) (inp : List Nat) : List Nat :=
  let mem1 :=
    if mem.length < input_idx + inp.length then
      growMem mem (round_up (input_idx + inp.length - mem.length))
    else mem
  writeMem mem1 input_idx inp

/-- Model: `Opa::eval_once` (the ABI v2+ single-call strategy): check the
dataset, bound the input length by `u32`, write the input at the input
checkpoint, resolve the entrypoint, call the guest `opa_eval` export,
decode the null-terminated result as `Vec<OpaOutput<O>>`, restore the
heap pointer to the input checkpoint, and return the last record's
`result` (an error when the vector is empty). -/
def Opa.eval_once {α : Type} (g : Guest) (dec : List Nat → Option (List α)) (o : Opa)
    (entrypoint : List Char) (input_bytes : List Nat) :
    Outcome α × Opa × List GuestCall :=
  match o.dataAddr with
  | none => (.err noDataMsg, o, [])
  | some data_addr =>
    if input_bytes.length < 2 ^ 32 then
      let o2 : Opa :=
        { o with guest :=
            { o.guest with mem := eval_once_mem o.guest.mem o.inputHeapPtr input_bytes } }
      match Opa.entrypoint_id o2 entrypoint with
      | .ok ep =>
        let pr := g.opaEval ep data_addr o.inputHeapPtr input_bytes.length
            (o.inputHeapPtr + input_bytes.length) o2.guest
        let o3 : Opa := { o2 with guest := pr.2 }
        let tr := [GuestCall.opaEval ep data_addr o.inputHeapPtr input_bytes.length
            (o.inputHeapPtr + input_bytes.length)]
        match Opa.bytes_at o3 pr.1 with
        | none => (.err "invalid output returned from evaluation", o3, tr)
        | some payload =>
          match dec payload with
          | none => (.err deserializeErrMsg, o3, tr)
          | some results =>
            let st := Opa.set_heap_ptr o3 o3.inputHeapPtr
            match results.getLast? with
            | some r => (.ok r, st.1, tr ++ st.2)
            | none => (.err "evaluation yielded no result", st.1, tr ++ st.2)
      | .err m => (.err m, o2, [])
      | .panicked m => (.panicked m, o2, [])
    else (.err "input data is too large", o, [])

/-- Model: `EvalContext::create`: rewind the heap pointer to the input
checkpoint, require a dataset, write the input, allocate a fresh guest
context and bind data and input into it.  Returns the context address. -/
def EvalContext.create (g : Guest) (o : Opa) (input_json : List Nat) :
    Outcome Nat × Opa × List GuestCall :=
  let sh := Opa.set_heap_ptr o o.inputHeapPtr
  match sh.1.dataAddr with
  | none => (.err noDataMsg, sh.1, sh.2)
  | some data_addr =>
    let w := Opa.write_json g sh.1 input_json
    match w.1 with
    | .ok input_addr =>
      let n := g.evalCtxNew w.2.1.guest
      let gs2 := g.evalCtxSetData n.1 data_addr n.2
      let gs3 := g.evalCtxSetInput n.1 input_addr gs2
      (.ok n.1, { w.2.1 with guest := gs3 },
       sh.2 ++ w.2.2 ++
         [GuestCall.evalCtxNew, GuestCall.evalCtxSetData n.1 data_addr,
          GuestCall.evalCtxSetInput n.1 input_addr])
    | .err m => (.err m, w.2.1, sh.2 ++ w.2.2)
    | .panicked m => (.panicked m, w.2.1, sh.2 ++ w.2.2)

/-- Model: `EvalContext::eval`: resolve the entrypoint, bind it into the
context, snapshot the heap pointer, invoke the guest `eval` export,
fetch and decode the result document, restore the heap pointer to the
snapshot (also on a serde error, but not across the `unwrap` panic), and
return the last record's `result` (an error when the vector is empty). -/
def EvalContext.eval {α : Type} (g : Guest) (dec : List Nat → Option (List α)) (o : Opa)
    (ctx_addr : Nat) (entrypoint : List Char) : Outcome α × Opa × List GuestCall :=
  match Opa.entrypoint_id o entrypoint with
  | .ok ep =>
    let o1 : Opa := { o with guest := g.evalCtxSetEntrypoint ctx_addr ep o.guest }
    let hp := Opa.heap_ptr o1
    let o2 : Opa := { hp.2.1 with guest := g.evalRun ctx_addr hp.2.1.guest }
    let gr := g.evalCtxGetResult ctx_addr o2.guest
    let o3 : Opa := { o2 with guest := gr.2 }
    let j := Opa.json_at g dec o3 gr.1
    let tr0 := [GuestCall.evalCtxSetEntrypoint ctx_addr ep] ++ hp.2.2 ++
        [GuestCall.evalRun ctx_addr, GuestCall.evalCtxGetResult ctx_addr] ++ j.2.2
    match j.1 with
    | .ok results =>
      let st := Opa.set_heap_ptr j.2.1 hp.1
      match results.getLast? with
      | some r => (.ok r, st.1, tr0 ++ st.2)
      | none => (.err "the query produced no results", st.1, tr0 ++ st.2)
    | .err m =>
      let st := Opa.set_heap_ptr j.2.1 hp.1
      (.err m, st.1, tr0 ++ st.2)
    | .panicked m => (.panicked m, j.2.1, tr0)
  | .err m => (.err m, o, [])
  | .panicked m => (.panicked m, o, [])

/-- Model: `EvalContext::destroy` / `destroy_mut`: rewind the guest heap
pointer to the input checkpoint.  (The source has no ABI-version branch
and calls no guest `opa_free`.) -/
def EvalContext.destroy (o : Opa) : Opa × List GuestCall :=
  Opa.set_heap_ptr o o.inputHeapPtr

/-- The ABI v1 branch of `Opa::eval`: create a transient context,
evaluate once, destroy it.  On an error from `EvalContext::eval` the
early return drops the context, which runs `destroy_mut`. -/
def Opa.eval_via_context {α : Type} (g : Guest) (dec : List Nat → Option (List α)) (o : Opa)
    (entrypoint : List Char) (input_bytes : List Nat) :
    Outcome α × Opa × List GuestCall :=
  let c := EvalContext.create g o input_bytes
  match c.1 with
  | .ok ctx_addr =>
    let e := EvalContext.eval g dec c.2.1 ctx_addr entrypoint
    match e.1 with
    | .ok r =>
      let d := EvalContext.destroy e.2.1
      (.ok r, d.1, c.2.2 ++ e.2.2 ++ d.2)
    | .err m =>
      let d := EvalContext.destroy e.2.1
      (.err m, d.1, c.2.2 ++ e.2.2 ++ d.2)
    | .panicked m =>
      let d := EvalContext.destroy e.2.1
      (.panicked m, d.1, c.2.2 ++ e.2.2 ++ d.2)
  | .err m => (.err m, c.2.1, c.2.2)
  | .panicked m => (.panicked m, c.2.1, c.2.2)

/-- Model: `Opa::eval`: dispatch on the detected ABI minor version — the
single-call strategy for `minor_version >= 2`, the context strategy
otherwise. -/
def Opa.eval {α : Type} (g : Guest) (dec : List Nat → Option (List α)) (o : Opa)
    (entrypoint : List Char) (input_bytes : List Nat) :
    Outcome α × Opa × List GuestCall :=
  if o.minorVersion ≥ 2 then Opa.eval_once g dec o entrypoint input_bytes
  else Opa.eval_via_context g dec o entrypoint input_bytes

/-- Model: `Opa::decide`: `self.eval(P::POLICY_PATH, input)`. -/
def Opa.decide {α : Type} (g : Guest) (dec : List Nat → Option (List α)) (o : Opa)
    (policy_path : List Char) (input_bytes : List Nat) :
    Outcome α × Opa × List GuestCall :=
  Opa.eval g dec o policy_path input_bytes

/-! ## Bundle loading (`crates/opa/src/bundle/mod.rs`) -/

/-- A `wasm` entry of the bundle manifest (`bundle/manifest.rs`). -/
structure WasmManifestEntry where
  entrypoint : List Char
  module : List Char
  deriving DecidableEq

/-- The bundle manifest (`bundle/manifest.rs`). -/
structure Manifest where
  revision : List Char
  roots : List (List Char)
  wasm : List WasmManifestEntry
  deriving DecidableEq

/-- A WASM policy exposed by a bundle. -/
structure WasmPolicy where
  entrypoint : List Char
  bytes : List Nat
  deriving DecidableEq

/-- The `Bundle` struct, parameterized by the JSON value type of
`data.json` (abstracting `serde_json::Value`). -/
structure Bundle (V : Type) where
  manifest : Option Manifest
  data : Option V
  rego_policies : List (List Char × List Nat)
  wasm_policies : List WasmPolicy

/-- The `Error` enum of `bundle/mod.rs`. -/
inductive BundleError where
  | io (msg : String)
  | invalidManifest (msg : String)
  | invalidData (msg : String)
  deriving DecidableEq

/-- The `thiserror` display strings of the `Error` enum. -/
def BundleError.display : BundleError → String
  | .io m => "invalid bundle: " ++ m
  | .invalidManifest m => "invalid manifest: " ++ m
  | .invalidData m => "invalid data file: " ++ m

/-- One entry of the (already un-gzipped and un-tarred) archive: its
in-archive path and its byte contents. -/
structure TarEntry where
  path : List Char
  bytes : List Nat
  deriving DecidableEq

/-- The accumulator of the entry loop in `Bundle::from_reader`. -/
structure BundleAcc (V : Type) where
  manifest : Option Manifest
  data : Option V
  rego_policies : List (List Char × List Nat)
  wasm_files : List (List Char × List Nat)

/-- Model: `HashMap::insert` on an association-list model: replace the value of
an existing key, otherwise append. -/
def map_insert {V : Type} (m : List (List Char × V)) (k : List Char) (v : V) :
    List (List Char × V) :=
  match m with
  | [] => [(k, v)]
  | (k0, v0) :: rest => if k0 = k then (k, v) :: rest else (k0, v0) :: map_insert rest k v

/-- Model: `filename.rsplit('.').next()`: the segment after the last dot (the
whole name when there is no dot). -/
def last_dot_segment (s : List Char) : List Char :=
  (s.reverse.takeWhile (fun c => !(c == '.'))).reverse

/-- Model: `str::eq_ignore_ascii_case`. -/
def eq_ignore_ascii_case (a b : List Char) : Bool :=
  a.map Char.toLower == b.map Char.toLower

/-- Model: `has_ext` of `bundle/mod.rs`. -/
def has_ext (filename : List Char) (ext : List Char) : Bool :=
  eq_ignore_ascii_case (last_dot_segment filename) ext

/-- One iteration of the entry loop of `Bundle::from_reader`.  `decM`
and `decV` model `serde_json::from_reader` for `Manifest` and for the
data value (`.error` carrying the serde error message).  Note the error
constructors used by the source: a failed `/.manifest` parse is wrapped
in `Error::InvalidData` and a failed `/data.json` parse in
`Error::InvalidManifest`. -/
def process_entry {V : Type} (decM : List Nat → Except String Manifest)
    (decV : List Nat → Except String V) (acc : BundleAcc V) (entry : TarEntry) :
    Except BundleError (BundleAcc V) :=
  if entry.path = "/.manifest".toList then
    match decM entry.bytes with
    | .ok m => .ok { acc with manifest := some m }
    | .error e => .error (BundleError.invalidData e)
  else if entry.path = "/data.json".toList then
    match decV entry.bytes with
    | .ok v => .ok { acc with data := some v }
    | .error e => .error (BundleError.invalidManifest e)
  else if has_ext entry.path "rego".toList then
    .ok { acc with rego_policies := map_insert acc.rego_policies entry.path entry.bytes }
  else if has_ext entry.path "wasm".toList then
    .ok { acc with wasm_files := map_insert acc.wasm_files entry.path entry.bytes }
  else .ok acc

/-- The entry loop of `Bundle::from_reader`, stopping at the first
failing entry. -/
def process_entries {V : Type} (decM : List Nat → Except String Manifest)
    (decV : List Nat → Except String V) :
    BundleAcc V → List TarEntry → Except BundleError (BundleAcc V)
  | acc, [] => .ok acc
  | acc, e :: rest =>
    match process_entry decM decV acc e with
    | .ok acc2 => process_entries decM decV acc2 rest
    | .error err => .error err

/-- The post-loop phase of `Bundle::from_reader`: expose a WASM file as
a policy only when a manifest `wasm` entry references it. -/
def collect_wasm_policies (m : Option Manifest) (files : List (List Char × List Nat)) :
    List WasmPolicy :=
  match m with
  | none => []
  | some mf =>
    mf.wasm.filterMap fun w =>
      match files.lookup w.module with
      | some b => some ⟨w.entrypoint, b⟩
      | none => none

/-- Model: `Bundle::from_reader`, on the entry list of the archive. -/
def Bundle.from_reader {V : Type} (decM : List Nat → Except String Manifest)
    (decV : List Nat → Except String V) (entries : List TarEntry) :
    Except BundleError (Bundle V) :=
  match process_entries decM decV ⟨none, none, [], []⟩ entries with
  | .ok acc =>
    .ok ⟨acc.manifest, acc.data, acc.rego_policies,
         collect_wasm_policies acc.manifest acc.wasm_files⟩
  | .error e => .error e

/-! ## Concrete instances for witnesses and counterexamples -/

/-- A simple concrete guest: a bump allocator that never touches memory
contents, identity context operations, and zero-address results. -/
def inertGuest : Guest where
  malloc := fun len s => (s.heapPtr, { s with heapPtr := s.heapPtr + len })
  jsonParse := fun addr _ s => (addr, s)
  jsonDump := fun addr s => (addr, s)
  opaEval := fun _ _ _ _ _ s => (0, s)
  evalCtxNew := fun s => (s.heapPtr, s)
  evalCtxSetData := fun _ _ s => s
  evalCtxSetInput := fun _ _ s => s
  evalCtxSetEntrypoint := fun _ _ s => s
  evalRun := fun _ s => s
  evalCtxGetResult := fun _ s => (0, s)
  free := fun _ s => s

/-- A fresh engine on which `set_data` has never been called. -/
def c1Opa : Opa :=
  { guest := { heapPtr := 0, mem := [0, 0, 0, 0] }, entrypoints := [(['a'], 7)]
    minorVersion := 0, dataHeapPtr := 0, dataAddr := none, inputHeapPtr := 0 }

/-- A v1 engine with an installed dataset (for the C9 witness). -/
def c9Opa : Opa :=
  { guest := { heapPtr := 2, mem := [0, 0, 0, 0] }, entrypoints := [(['a'], 7)]
    minorVersion := 0, dataHeapPtr := 0, dataAddr := some 1, inputHeapPtr := 2 }

/-! ## Helper lemmas -/

theorem contains_iff_mem (l : List Char) (c : Char) : l.contains c = true ↔ c ∈ l := by
  induction l with
  | nil => simp [List.contains]
  | cons a t ih =>
    simp only [List.contains] at ih ⊢
    rw [List.elem_cons]
    by_cases h : c = a
    · subst h; simp
    · simp only [List.mem_cons]
      have : (c == a) = false := by simpa using h
      simp [this, ih, h]

theorem dotToSlash_ne_dot (c : Char) : dotToSlash c ≠ '.' := by
  unfold dotToSlash
  by_cases h : c = '.'
  · simp [h]
  · simp [h]

theorem replace_dots_no_dot (e : List Char) : ('.' ∈ replace_dots e) → False := by
  intro h
  unfold replace_dots at h
  obtain ⟨c, _, hc⟩ := List.mem_map.mp h
  exact dotToSlash_ne_dot c hc

theorem replace_dots_id (e : List Char) (h : ¬ '.' ∈ e) : replace_dots e = e := by
  induction e with
  | nil => rfl
  | cons a t ih =>
    simp only [List.mem_cons, not_or] at h
    unfold replace_dots at ih ⊢
    simp only [List.map_cons, List.map]
    rw [ih h.2]
    unfold dotToSlash
    have : ¬ a = '.' := fun hc => h.1 hc.symm
    simp [this]

theorem normalize_replace_dots (p : List Char) :
    normalize_entrypoint (replace_dots p) = normalize_entrypoint p := by
  unfold normalize_entrypoint
  have h1 : (replace_dots p).contains '.' = false := by
    rw [Bool.eq_false_iff]
    intro hc
    exact replace_dots_no_dot p ((contains_iff_mem _ _).mp hc)
  rw [h1]
  simp only [Bool.false_eq_true, if_false]
  by_cases h : p.contains '.' = true
  · rw [h]; simp
  · have h' : p.contains '.' = false := by simpa using h
    rw [h']
    simp only [Bool.false_eq_true, if_false]
    exact replace_dots_id p (fun hm => h ((contains_iff_mem _ _).mpr hm))

/-! ## Claims -/

/-- C1: for every entrypoint name and every input, calling `eval` (or
`decide`, or `eval_context`, i.e. `EvalContext::create`) on an engine on
which `set_data` has never been called (`data_addr = None`) returns the
"no data" error, under both the ABI v2+ single-call strategy and the ABI
v1 context strategy. -/
theorem claim_C1 {α : Type} (g : Guest) (dec : List Nat → Option (List α)) (o : Opa)
    (e : List Char) (inp : List Nat) (h : o.dataAddr = none) :
    (Opa.eval g dec o e inp).1 = Outcome.err noDataMsg ∧
    (Opa.decide g dec o e inp).1 = Outcome.err noDataMsg ∧
    (EvalContext.create g o inp).1 = Outcome.err noDataMsg := by
  have hc : (EvalContext.create g o inp).1 = Outcome.err noDataMsg := by
    simp [EvalContext.create, Opa.set_heap_ptr, h]
  have ho : (Opa.eval_once g dec o e inp).1 = Outcome.err noDataMsg := by
    simp [Opa.eval_once, h]
  have hv : (Opa.eval_via_context g dec o e inp).1 = Outcome.err noDataMsg := by
    simp [Opa.eval_via_context, hc]
  have he : (Opa.eval g dec o e inp).1 = Outcome.err noDataMsg := by
    unfold Opa.eval
    split
    · exact ho
    · exact hv
  exact ⟨he, he, hc⟩

/-- C1 witness: a concrete fresh engine. -/
theorem claim_C1_witness :
    (Opa.eval inertGuest (fun _ => some ([] : List Nat)) c1Opa ['a'] [49]).1 =
      Outcome.err noDataMsg ∧
    (Opa.decide inertGuest (fun _ => some ([] : List Nat)) c1Opa ['a'] [49]).1 =
      Outcome.err noDataMsg ∧
    (EvalContext.create inertGuest c1Opa [49]).1 = Outcome.err noDataMsg :=
  claim_C1 inertGuest (fun _ => some ([] : List Nat)) c1Opa ['a'] [49] rfl

/-- C5: entrypoint resolution is invariant under replacing every `.` by
`/`: resolving a path and resolving its dot-to-slash image yield the
same outcome (same id, or the same "invalid entrypoint" error). -/
theorem claim_C5 (o : Opa) (p : List Char) :
    Opa.entrypoint_id o (replace_dots p) = Opa.entrypoint_id o p := by
  unfold Opa.entrypoint_id
  rw [normalize_replace_dots]

/-- C9: a negative `opa_wasm_abi_minor_version` global is treated as
minor version 0, exactly as if the global were absent, so `eval` uses
the ABI v1 context strategy. -/
theorem claim_C9 (i : Int) (hi : i < 0) :
    detect_minor_version (some i) = 0 ∧
    detect_minor_version none = 0 ∧
    ∀ {α : Type} (g : Guest) (dec : List Nat → Option (List α)) (o : Opa)
      (e : List Char) (inp : List Nat),
      o.minorVersion = detect_minor_version (some i) →
      Opa.eval g dec o e inp = Opa.eval_via_context g dec o e inp := by
  have hd : detect_minor_version (some i) = 0 := by
    simp [detect_minor_version, usize_try_from_i32, not_le.mpr hi]
  refine ⟨hd, rfl, ?_⟩
  intro α g dec o e inp hm
  rw [hd] at hm
  unfold Opa.eval
  rw [hm]
  simp

/-- C9 witness: the global holds `-1`; detection yields 0 and a
version-0 engine evaluates via the context strategy. -/
theorem claim_C9_witness :
    detect_minor_version (some (-1)) = 0 ∧
    Opa.eval inertGuest (fun _ => some ([] : List Nat)) c9Opa ['a'] [49] =
      Opa.eval_via_context inertGuest (fun _ => some ([] : List Nat)) c9Opa ['a'] [49] :=
  ⟨(claim_C9 (-1) (by decide)).1,
   (claim_C9 (-1) (by decide)).2.2 inertGuest (fun _ => some ([] : List Nat)) c9Opa
     ['a'] [49] (by decide)⟩

/-- A v1 engine holding a previous dataset at address 1. -/
def c2Opa : Opa :=
  { guest := { heapPtr := 2, mem := [0, 0, 0, 0, 0, 0, 0, 0] }, entrypoints := [(['a'], 7)]
    minorVersion := 0, dataHeapPtr := 0, dataAddr := some 1, inputHeapPtr := 2 }

/-- A v1 engine with input checkpoint 3 (for the C6 counterexample). -/
def c6Opa : Opa :=
  { guest := { heapPtr := 7, mem := [0, 0, 0, 0] }, entrypoints := [(['a'], 7)]
    minorVersion := 0, dataHeapPtr := 0, dataAddr := some 1, inputHeapPtr := 3 }

/-- Model: `Opa::write_bytes` performs exactly one guest call: `opa_malloc`. -/
theorem write_bytes_trace (g : Guest) (o : Opa) (bytes : List Nat) :
    (Opa.write_bytes g o bytes).2.2 = [GuestCall.malloc bytes.length] := by
  unfold Opa.write_bytes Opa.alloc
  dsimp only
  by_cases h :
      (g.malloc bytes.length o.guest).1 + bytes.length ≤
        (g.malloc bytes.length o.guest).2.mem.length <;>
    simp [h]

/-- Model: `Opa::write_json` never calls the guest `opa_free` export. -/
theorem write_json_no_free (g : Guest) (o : Opa) (json : List Nat) :
    ((Opa.write_json g o json).2.2.any GuestCall.isFree) = false := by
  unfold Opa.write_json
  dsimp only
  split <;> simp [write_bytes_trace, GuestCall.isFree]

/-- Model: `Opa::write_json` changes only the guest state, no host bookkeeping
field. -/
theorem write_json_preserves (g : Guest) (o : Opa) (json : List Nat) :
    (Opa.write_json g o json).2.1 =
      { o with guest := (Opa.write_json g o json).2.1.guest } := by
  unfold Opa.write_json Opa.write_bytes Opa.alloc
  dsimp only
  by_cases h :
      (g.malloc json.length o.guest).1 + json.length ≤
        (g.malloc json.length o.guest).2.mem.length <;>
    simp [h]

/-- Model: `Opa::set_data` never reads the prior dataset address: a successful
call produces the identical outcome, state and trace whatever the prior
`data_addr` was. -/
theorem set_data_supersedes (g : Guest) (o : Opa) (json : List Nat) (p : Option Nat) :
    (Opa.set_data g { o with dataAddr := p } json).1 = (Opa.set_data g o json).1 ∧
    (Opa.set_data g { o with dataAddr := p } json).2.2 = (Opa.set_data g o json).2.2 ∧
    ((Opa.set_data g o json).1 = Outcome.ok () →
      (Opa.set_data g { o with dataAddr := p } json).2.1 = (Opa.set_data g o json).2.1) := by
  unfold Opa.set_data Opa.write_json Opa.write_bytes Opa.alloc Opa.set_heap_ptr Opa.heap_ptr
  dsimp only
  by_cases h :
      (g.malloc json.length { heapPtr := o.dataHeapPtr, mem := o.guest.mem }).1 + json.length ≤
        (g.malloc json.length { heapPtr := o.dataHeapPtr, mem := o.guest.mem }).2.mem.length <;>
    simp [h]

/-- C2 counterexample: a concrete ABI v1 engine (`minor_version = 0`)
with an existing dataset address; `set_data` succeeds yet performs no
guest `opa_free` call at all, contradicting "under ABI v1, frees the
prior dataset address via the guest free export". -/
theorem claim_C2_counterexample :
    c2Opa.minorVersion = 0 ∧ c2Opa.dataAddr = some 1 ∧
    (Opa.set_data inertGuest c2Opa [49]).1 = Outcome.ok () ∧
    ((Opa.set_data inertGuest c2Opa [49]).2.2.any GuestCall.isFree) = false := by
  decide

/-- C2 amended: `set_data`, for every ABI version alike, first rewinds
the guest heap pointer to the dataset checkpoint (its first guest call),
never calls the guest free export, writes the new dataset (recording its
address) and re-snapshots the heap pointer as the new input checkpoint;
each call fully supersedes the prior dataset (the prior dataset address
is never read). -/
theorem claim_C2_amended (g : Guest) (o : Opa) (json : List Nat) :
    ((Opa.set_data g o json).2.2.any GuestCall.isFree) = false ∧
    (Opa.set_data g o json).2.2.head? = some (GuestCall.heapPtrSet o.dataHeapPtr) ∧
    (Opa.set_data g o json).2.1.dataHeapPtr = o.dataHeapPtr ∧
    ((Opa.set_data g o json).1 = Outcome.ok () →
      (∃ a, (Opa.set_data g o json).2.1.dataAddr = some a) ∧
      (Opa.set_data g o json).2.1.inputHeapPtr = (Opa.set_data g o json).2.1.guest.heapPtr) ∧
    (∀ p, (Opa.set_data g o json).1 = Outcome.ok () →
      Opa.set_data g { o with dataAddr := p } json = Opa.set_data g o json) := by
  refine ⟨?_, ?_, ?_, ?_, ?_⟩
  · unfold Opa.set_data
    dsimp only
    split <;>
      simp [Opa.set_heap_ptr, Opa.heap_ptr, GuestCall.isFree, write_json_no_free,
        List.any_append]
  · unfold Opa.set_data
    dsimp only
    split <;> simp [Opa.set_heap_ptr]
  · unfold Opa.set_data
    dsimp only
    split <;> rw [show (Opa.set_heap_ptr o o.dataHeapPtr).1 = { o with guest := { o.guest with heapPtr := o.dataHeapPtr } } from rfl] at * <;>
      simp_all [Opa.heap_ptr] <;>
      rw [write_json_preserves]
  · intro hok
    unfold Opa.set_data at hok ⊢
    dsimp only at hok ⊢
    split at hok <;> simp_all [Opa.heap_ptr]
  · intro p hok
    have h := set_data_supersedes g o json p
    exact Prod.ext (h.1) (Prod.ext (h.2.2 hok) (h.2.1))

/-- C2 witness for the amended claim: the concrete run of
`claim_C2_counterexample`'s engine, with the success hypotheses
discharged. -/
theorem claim_C2_amended_witness :
    (∃ a, (Opa.set_data inertGuest c2Opa [49]).2.1.dataAddr = some a) ∧
    (Opa.set_data inertGuest c2Opa [49]).2.1.inputHeapPtr =
      (Opa.set_data inertGuest c2Opa [49]).2.1.guest.heapPtr ∧
    Opa.set_data inertGuest { c2Opa with dataAddr := some 6 } [49] =
      Opa.set_data inertGuest c2Opa [49] :=
  ⟨((claim_C2_amended inertGuest c2Opa [49]).2.2.2.1 (by decide)).1,
   ((claim_C2_amended inertGuest c2Opa [49]).2.2.2.1 (by decide)).2,
   (claim_C2_amended inertGuest c2Opa [49]).2.2.2.2 (some 6) (by decide)⟩

/-- C6 counterexample: a concrete ABI v1 context; `destroy` performs a
single guest call, `opa_heap_ptr_set` to the input checkpoint, and no
guest `opa_free` call, contradicting "under ABI v1 it frees the
context's input address and context address via the guest free export". -/
theorem claim_C6_counterexample :
    c6Opa.minorVersion = 0 ∧
    (EvalContext.destroy c6Opa).2 = [GuestCall.heapPtrSet 3] ∧
    ((EvalContext.destroy c6Opa).2.any GuestCall.isFree) = false := by
  decide

/-- C6 amended: `EvalContext::destroy` releases guest-side resources by
rewinding the guest heap pointer to the input checkpoint, for every ABI
version alike, and never calls the guest free export; it consumes the
context. -/
theorem claim_C6_amended (o : Opa) :
    EvalContext.destroy o =
      ({ o with guest := { o.guest with heapPtr := o.inputHeapPtr } },
       [GuestCall.heapPtrSet o.inputHeapPtr]) ∧
    ((EvalContext.destroy o).2.any GuestCall.isFree) = false :=
  ⟨rfl, rfl⟩

/-- A v2 engine with an installed dataset, ready for evaluation. -/
def c3Opa : Opa :=
  { guest := { heapPtr := 9, mem := [0, 0, 0, 0] }, entrypoints := [(['a'], 7)]
    minorVersion := 2, dataHeapPtr := 0, dataAddr := some 1, inputHeapPtr := 0 }

/-- A successful `Opa::eval_once` leaves the guest heap pointer at the
input checkpoint, and the checkpoint itself unchanged. -/
theorem eval_once_restores {α : Type} (g : Guest) (dec : List Nat → Option (List α)) (o : Opa)
    (e : List Char) (inp : List Nat) :
    ∀ r, (Opa.eval_once g dec o e inp).1 = Outcome.ok r →
      (Opa.eval_once g dec o e inp).2.1.guest.heapPtr = o.inputHeapPtr ∧
      (Opa.eval_once g dec o e inp).2.1.inputHeapPtr = o.inputHeapPtr := by
  unfold Opa.eval_once
  dsimp only
  repeat' split
  all_goals intro r hr
  all_goals simp_all [Opa.set_heap_ptr]

/-- A successful `EvalContext::eval` leaves the guest heap pointer at
the snapshot taken just before the guest `eval` export was invoked. -/
theorem ctx_eval_restores {α : Type} (g : Guest) (dec : List Nat → Option (List α)) (o : Opa)
    (ctx : Nat) (e : List Char) (ep : Nat)
    (hep : Opa.entrypoint_id o e = Outcome.ok ep) :
    ∀ r, (EvalContext.eval g dec o ctx e).1 = Outcome.ok r →
      (EvalContext.eval g dec o ctx e).2.1.guest.heapPtr =
        (g.evalCtxSetEntrypoint ctx ep o.guest).heapPtr := by
  unfold EvalContext.eval
  rw [hep]
  dsimp only
  repeat' split
  all_goals intro r hr
  all_goals simp_all [Opa.heap_ptr, Opa.set_heap_ptr]

/-- C3: every successful evaluation restores the guest heap pointer —
after a v2+ single-call `eval_once` it equals the input checkpoint of
the last `set_data`, after an `EvalContext::eval` it equals the snapshot
taken just before the guest `eval` export was invoked, and hence two
(and so any number of) sequential successful `eval_once` calls with the
same input end at the same heap pointer. -/
theorem claim_C3 {α : Type} (g : Guest) (dec : List Nat → Option (List α)) (o : Opa)
    (e : List Char) (inp : List Nat) :
    (∀ r, (Opa.eval_once g dec o e inp).1 = Outcome.ok r →
      (Opa.eval_once g dec o e inp).2.1.guest.heapPtr = o.inputHeapPtr ∧
      (Opa.eval_once g dec o e inp).2.1.inputHeapPtr = o.inputHeapPtr) ∧
    (∀ ctx ep, Opa.entrypoint_id o e = Outcome.ok ep →
      ∀ r, (EvalContext.eval g dec o ctx e).1 = Outcome.ok r →
        (EvalContext.eval g dec o ctx e).2.1.guest.heapPtr =
          (g.evalCtxSetEntrypoint ctx ep o.guest).heapPtr) ∧
    (∀ r1 r2,
      (Opa.eval_once g dec o e inp).1 = Outcome.ok r1 →
      (Opa.eval_once g dec (Opa.eval_once g dec o e inp).2.1 e inp).1 = Outcome.ok r2 →
      (Opa.eval_once g dec (Opa.eval_once g dec o e inp).2.1 e inp).2.1.guest.heapPtr =
        (Opa.eval_once g dec o e inp).2.1.guest.heapPtr) := by
  refine ⟨eval_once_restores g dec o e inp, ?_, ?_⟩
  · intro ctx ep hep r hr
    exact ctx_eval_restores g dec o ctx e ep hep r hr
  · intro r1 r2 h1 h2
    have ha := eval_once_restores g dec o e inp r1 h1
    have hb := eval_once_restores g dec (Opa.eval_once g dec o e inp).2.1 e inp r2 h2
    rw [hb.1, ha.2, ha.1]

/-- C3 witness: a concrete successful single-call evaluation, a
concrete successful context evaluation, and a concrete pair of
back-to-back single-call evaluations. -/
theorem claim_C3_witness :
    (Opa.eval_once inertGuest (fun _ => some ([5] : List Nat)) c3Opa ['a'] [49]).2.1.guest.heapPtr
        = c3Opa.inputHeapPtr ∧
    (EvalContext.eval inertGuest (fun _ => some ([5] : List Nat)) c3Opa 2 ['a']).2.1.guest.heapPtr
        = (inertGuest.evalCtxSetEntrypoint 2 7 c3Opa.guest).heapPtr ∧
    (Opa.eval_once inertGuest (fun _ => some ([5] : List Nat))
        (Opa.eval_once inertGuest (fun _ => some ([5] : List Nat)) c3Opa ['a'] [49]).2.1
        ['a'] [49]).2.1.guest.heapPtr =
      (Opa.eval_once inertGuest (fun _ => some ([5] : List Nat)) c3Opa ['a'] [49]).2.1.guest.heapPtr :=
  ⟨((claim_C3 inertGuest (fun _ => some ([5] : List Nat)) c3Opa ['a'] [49]).1 5 (by decide)).1,
   (claim_C3 inertGuest (fun _ => some ([5] : List Nat)) c3Opa ['a'] [49]).2.1 2 7
     (by decide) 5 (by decide),
   (claim_C3 inertGuest (fun _ => some ([5] : List Nat)) c3Opa ['a'] [49]).2.2 5 5
     (by decide) (by decide)⟩

/-- A v2 engine for the C4 witness. -/
def c4Opa : Opa :=
  { guest := { heapPtr := 9, mem := [0, 0, 0, 0] }, entrypoints := [(['a'], 7)]
    minorVersion := 2, dataHeapPtr := 0, dataAddr := some 1, inputHeapPtr := 0 }

/-- A v2 engine for the C8 witness. -/
def c8Opa : Opa :=
  { guest := { heapPtr := 9, mem := [0, 0, 0, 0] }, entrypoints := [(['a'], 7)]
    minorVersion := 2, dataHeapPtr := 0, dataAddr := some 1, inputHeapPtr := 0 }

/-- How `Opa::eval_once` maps the decoded result vector to its return
value, once the run reaches the decoding step. -/
theorem eval_once_decodes {α : Type} (g : Guest) (dec : List Nat → Option (List α)) (o : Opa)
    (e : List Char) (inp : List Nat) (d ep : Nat) (o2 : Opa) (pr : Nat × GuestState)
    (payload : List Nat)
    (h1 : o.dataAddr = some d) (h2 : inp.length < 2 ^ 32)
    (ho2 : o2 =
      { guest := { heapPtr := o.guest.heapPtr, mem := eval_once_mem o.guest.mem o.inputHeapPtr inp }
        entrypoints := o.entrypoints, minorVersion := o.minorVersion
        dataHeapPtr := o.dataHeapPtr, dataAddr := o.dataAddr, inputHeapPtr := o.inputHeapPtr })
    (h3 : Opa.entrypoint_id o2 e = Outcome.ok ep)
    (hpr : pr = g.opaEval ep d o.inputHeapPtr inp.length (o.inputHeapPtr + inp.length) o2.guest)
    (h4 : Opa.bytes_at
      { guest := pr.2, entrypoints := o.entrypoints, minorVersion := o.minorVersion
        dataHeapPtr := o.dataHeapPtr, dataAddr := o.dataAddr, inputHeapPtr := o.inputHeapPtr }
      pr.1 = some payload) :
    (Opa.eval_once g dec o e inp).1 =
      (match dec payload with
       | none => Outcome.err deserializeErrMsg
       | some results =>
         match results.getLast? with
         | some r => Outcome.ok r
         | none => Outcome.err "evaluation yielded no result") := by
  subst ho2
  subst hpr
  rw [h1] at h3 h4
  try dsimp only at h3
  try dsimp only at h4
  unfold Opa.eval_once
  rw [h1]
  try dsimp only
  rw [if_pos h2]
  try dsimp only
  rw [h3]
  try dsimp only
  rw [h4]
  try dsimp only
  cases hd : dec payload with
  | none => simp
  | some results => cases hl : results.getLast? <;> simp [hl]

/-- How `EvalContext::eval` maps the decoded result vector to its
return value, once the run reaches the decoding step. -/
theorem ctx_eval_decodes {α : Type} (g : Guest) (dec : List Nat → Option (List α)) (o : Opa)
    (ctx : Nat) (e : List Char) (ep : Nat) (gs1 gs2 : GuestState) (gr pr : Nat × GuestState)
    (payload : List Nat)
    (hep : Opa.entrypoint_id o e = Outcome.ok ep)
    (hgs1 : gs1 = g.evalCtxSetEntrypoint ctx ep o.guest)
    (hgs2 : gs2 = g.evalRun ctx gs1)
    (hgr : gr = g.evalCtxGetResult ctx gs2)
    (hpr : pr = g.jsonDump gr.1 gr.2)
    (h4 : null_terminated_slice (pr.2.mem.drop pr.1) = some payload) :
    (EvalContext.eval g dec o ctx e).1 =
      (match dec payload with
       | none => Outcome.err deserializeErrMsg
       | some results =>
         match results.getLast? with
         | some r => Outcome.ok r
         | none => Outcome.err "the query produced no results") := by
  subst hgs1
  subst hgs2
  subst hgr
  subst hpr
  unfold EvalContext.eval Opa.heap_ptr Opa.set_heap_ptr Opa.json_at Opa.bytes_at
  rw [hep]
  try dsimp only
  rw [h4]
  try dsimp only
  cases hd : dec payload with
  | none => simp
  | some results => cases hl : results.getLast? <;> simp [hl]

/-- C4: every evaluation decodes the guest result document as a vector
of `{result}` records; an empty vector is a "no results" error, and
otherwise the `result` of the last record is returned (earlier records
are discarded) — for the single-call strategy and the context strategy
alike. -/
theorem claim_C4 :
    (∀ {α : Type} (g : Guest) (dec : List Nat → Option (List α)) (o : Opa) (e : List Char)
       (inp : List Nat) (d ep : Nat) (o2 : Opa) (pr : Nat × GuestState) (payload : List Nat)
       (l : List α),
       o.dataAddr = some d → inp.length < 2 ^ 32 →
       o2 =
         { guest :=
             { heapPtr := o.guest.heapPtr, mem := eval_once_mem o.guest.mem o.inputHeapPtr inp }
           entrypoints := o.entrypoints, minorVersion := o.minorVersion
           dataHeapPtr := o.dataHeapPtr, dataAddr := o.dataAddr
           inputHeapPtr := o.inputHeapPtr } →
       Opa.entrypoint_id o2 e = Outcome.ok ep →
       pr = g.opaEval ep d o.inputHeapPtr inp.length (o.inputHeapPtr + inp.length) o2.guest →
       Opa.bytes_at
         { guest := pr.2, entrypoints := o.entrypoints, minorVersion := o.minorVersion
           dataHeapPtr := o.dataHeapPtr, dataAddr := o.dataAddr
           inputHeapPtr := o.inputHeapPtr }
         pr.1 = some payload →
       dec payload = some l →
       ((l = [] →
          (Opa.eval_once g dec o e inp).1 = Outcome.err "evaluation yielded no result") ∧
        (∀ r, l.getLast? = some r → (Opa.eval_once g dec o e inp).1 = Outcome.ok r))) ∧
    (∀ {α : Type} (g : Guest) (dec : List Nat → Option (List α)) (o : Opa) (ctx : Nat)
       (e : List Char) (ep : Nat) (gs1 gs2 : GuestState) (gr pr : Nat × GuestState)
       (payload : List Nat) (l : List α),
       Opa.entrypoint_id o e = Outcome.ok ep →
       gs1 = g.evalCtxSetEntrypoint ctx ep o.guest →
       gs2 = g.evalRun ctx gs1 →
       gr = g.evalCtxGetResult ctx gs2 →
       pr = g.jsonDump gr.1 gr.2 →
       null_terminated_slice (pr.2.mem.drop pr.1) = some payload →
       dec payload = some l →
       ((l = [] →
          (EvalContext.eval g dec o ctx e).1 = Outcome.err "the query produced no results") ∧
        (∀ r, l.getLast? = some r → (EvalContext.eval g dec o ctx e).1 = Outcome.ok r))) := by
  constructor
  · intro α g dec o e inp d ep o2 pr payload l h1 h2 ho2 h3 hpr h4 hdec
    have h := eval_once_decodes g dec o e inp d ep o2 pr payload h1 h2 ho2 h3 hpr h4
    rw [hdec] at h
    constructor
    · intro hl; subst hl; simpa using h
    · intro r hr; rw [h]; simp [hr]
  · intro α g dec o ctx e ep gs1 gs2 gr pr payload l hep hgs1 hgs2 hgr hpr h4 hdec
    have h := ctx_eval_decodes g dec o ctx e ep gs1 gs2 gr pr payload hep hgs1 hgs2 hgr hpr h4
    rw [hdec] at h
    constructor
    · intro hl; subst hl; simpa using h
    · intro r hr; rw [h]; simp [hr]

/-- C4 witness: concrete runs — a one-record result vector returns its
last `result`, an empty vector errors, on both strategies. -/
theorem claim_C4_witness :
    (Opa.eval_once inertGuest (fun _ => some ([5] : List Nat)) c4Opa ['a'] [49]).1 =
      Outcome.ok 5 ∧
    (Opa.eval_once inertGuest (fun _ => some ([] : List Nat)) c4Opa ['a'] [49]).1 =
      Outcome.err "evaluation yielded no result" ∧
    (EvalContext.eval inertGuest (fun _ => some ([5] : List Nat)) c4Opa 2 ['a']).1 =
      Outcome.ok 5 ∧
    (EvalContext.eval inertGuest (fun _ => some ([] : List Nat)) c4Opa 2 ['a']).1 =
      Outcome.err "the query produced no results" :=
  ⟨(claim_C4.1 inertGuest (fun _ => some ([5] : List Nat)) c4Opa ['a'] [49] 1 7 _ _ [49] [5]
      rfl (by decide) rfl (by decide) rfl (by decide) rfl).2 5 rfl,
   (claim_C4.1 inertGuest (fun _ => some ([] : List Nat)) c4Opa ['a'] [49] 1 7 _ _ [49] []
      rfl (by decide) rfl (by decide) rfl (by decide) rfl).1 rfl,
   (claim_C4.2 inertGuest (fun _ => some ([5] : List Nat)) c4Opa 2 ['a'] 7 _ _ _ _ [] [5]
      (by decide) rfl rfl rfl rfl (by decide) rfl).2 5 rfl,
   (claim_C4.2 inertGuest (fun _ => some ([] : List Nat)) c4Opa 2 ['a'] 7 _ _ _ _ [] []
      (by decide) rfl rfl rfl rfl (by decide) rfl).1 rfl⟩

/-- C8: a decoding failure of the guest-produced result payload (a
serde error: malformed JSON or a type mismatch) is surfaced as an error
value returned to the caller, never as a panic — on both strategies. -/
theorem claim_C8 :
    (∀ {α : Type} (g : Guest) (dec : List Nat → Option (List α)) (o : Opa) (e : List Char)
       (inp : List Nat) (d ep : Nat) (o2 : Opa) (pr : Nat × GuestState) (payload : List Nat),
       o.dataAddr = some d → inp.length < 2 ^ 32 →
       o2 =
         { guest :=
             { heapPtr := o.guest.heapPtr, mem := eval_once_mem o.guest.mem o.inputHeapPtr inp }
           entrypoints := o.entrypoints, minorVersion := o.minorVersion
           dataHeapPtr := o.dataHeapPtr, dataAddr := o.dataAddr
           inputHeapPtr := o.inputHeapPtr } →
       Opa.entrypoint_id o2 e = Outcome.ok ep →
       pr = g.opaEval ep d o.inputHeapPtr inp.length (o.inputHeapPtr + inp.length) o2.guest →
       Opa.bytes_at
         { guest := pr.2, entrypoints := o.entrypoints, minorVersion := o.minorVersion
           dataHeapPtr := o.dataHeapPtr, dataAddr := o.dataAddr
           inputHeapPtr := o.inputHeapPtr }
         pr.1 = some payload →
       dec payload = none →
       ((Opa.eval_once g dec o e inp).1 = Outcome.err deserializeErrMsg ∧
        ∀ m, (Opa.eval_once g dec o e inp).1 ≠ Outcome.panicked m)) ∧
    (∀ {α : Type} (g : Guest) (dec : List Nat → Option (List α)) (o : Opa) (ctx : Nat)
       (e : List Char) (ep : Nat) (gs1 gs2 : GuestState) (gr pr : Nat × GuestState)
       (payload : List Nat),
       Opa.entrypoint_id o e = Outcome.ok ep →
       gs1 = g.evalCtxSetEntrypoint ctx ep o.guest →
       gs2 = g.evalRun ctx gs1 →
       gr = g.evalCtxGetResult ctx gs2 →
       pr = g.jsonDump gr.1 gr.2 →
       null_terminated_slice (pr.2.mem.drop pr.1) = some payload →
       dec payload = none →
       ((EvalContext.eval g dec o ctx e).1 = Outcome.err deserializeErrMsg ∧
        ∀ m, (EvalContext.eval g dec o ctx e).1 ≠ Outcome.panicked m)) := by
  constructor
  · intro α g dec o e inp d ep o2 pr payload h1 h2 ho2 h3 hpr h4 hdec
    have h := eval_once_decodes g dec o e inp d ep o2 pr payload h1 h2 ho2 h3 hpr h4
    rw [hdec] at h
    refine ⟨by simpa using h, ?_⟩
    intro m hm
    rw [hm] at h
    simp at h
  · intro α g dec o ctx e ep gs1 gs2 gr pr payload hep hgs1 hgs2 hgr hpr h4 hdec
    have h := ctx_eval_decodes g dec o ctx e ep gs1 gs2 gr pr payload hep hgs1 hgs2 hgr hpr h4
    rw [hdec] at h
    refine ⟨by simpa using h, ?_⟩
    intro m hm
    rw [hm] at h
    simp at h

/-- C8 witness: a concrete run whose payload fails to decode yields the
deserialization error, not a panic, on both strategies. -/
theorem claim_C8_witness :
    (Opa.eval_once inertGuest (fun _ => (none : Option (List Nat))) c8Opa ['a'] [49]).1 =
      Outcome.err deserializeErrMsg ∧
    (EvalContext.eval inertGuest (fun _ => (none : Option (List Nat))) c8Opa 2 ['a']).1 =
      Outcome.err deserializeErrMsg :=
  ⟨(claim_C8.1 inertGuest (fun _ => (none : Option (List Nat))) c8Opa ['a'] [49] 1 7 _ _ [49]
      rfl (by decide) rfl (by decide) rfl (by decide) rfl).1,
   (claim_C8.2 inertGuest (fun _ => (none : Option (List Nat))) c8Opa 2 ['a'] 7 _ _ _ _ []
      (by decide) rfl rfl rfl rfl (by decide) rfl).1⟩

/-- A v2 engine with a dataset, for the C7 counterexample: evaluating an
unknown entrypoint writes the serialized input into guest memory before
the name is resolved. -/
def c7Opa : Opa :=
  { guest := { heapPtr := 9, mem := [0, 0, 0, 0] }, entrypoints := [(['a'], 7)]
    minorVersion := 2, dataHeapPtr := 0, dataAddr := some 1, inputHeapPtr := 0 }

/-- A v2 engine with no dataset, for the C7 witness. -/
def c7bOpa : Opa :=
  { guest := { heapPtr := 9, mem := [0, 0, 0, 0] }, entrypoints := [(['a'], 7)]
    minorVersion := 2, dataHeapPtr := 0, dataAddr := none, inputHeapPtr := 0 }

theorem write_json_ep (g : Guest) (o : Opa) (json : List Nat) :
    (Opa.write_json g o json).2.1.entrypoints = o.entrypoints := by
  rw [write_json_preserves]

theorem write_json_mv (g : Guest) (o : Opa) (json : List Nat) :
    (Opa.write_json g o json).2.1.minorVersion = o.minorVersion := by
  rw [write_json_preserves]

theorem write_json_dhp (g : Guest) (o : Opa) (json : List Nat) :
    (Opa.write_json g o json).2.1.dataHeapPtr = o.dataHeapPtr := by
  rw [write_json_preserves]

theorem write_json_da (g : Guest) (o : Opa) (json : List Nat) :
    (Opa.write_json g o json).2.1.dataAddr = o.dataAddr := by
  rw [write_json_preserves]

theorem write_json_ihp (g : Guest) (o : Opa) (json : List Nat) :
    (Opa.write_json g o json).2.1.inputHeapPtr = o.inputHeapPtr := by
  rw [write_json_preserves]

/-- No evaluation path ever writes the host bookkeeping fields: the
entrypoint table, ABI version, dataset checkpoint, dataset address and
input checkpoint are preserved by `Opa::eval`. -/
theorem eval_preserves_fields {α : Type} (g : Guest) (dec : List Nat → Option (List α))
    (o : Opa) (e : List Char) (inp : List Nat) :
    (Opa.eval g dec o e inp).2.1.entrypoints = o.entrypoints ∧
    (Opa.eval g dec o e inp).2.1.minorVersion = o.minorVersion ∧
    (Opa.eval g dec o e inp).2.1.dataHeapPtr = o.dataHeapPtr ∧
    (Opa.eval g dec o e inp).2.1.dataAddr = o.dataAddr ∧
    (Opa.eval g dec o e inp).2.1.inputHeapPtr = o.inputHeapPtr := by
  unfold Opa.eval
  split
  · unfold Opa.eval_once
    dsimp only
    repeat' split
    all_goals simp [Opa.set_heap_ptr]
  · unfold Opa.eval_via_context EvalContext.create EvalContext.eval EvalContext.destroy
      Opa.json_at Opa.set_heap_ptr Opa.heap_ptr
    dsimp only
    repeat' split
    all_goals simp [write_json_ep, write_json_mv, write_json_dhp, write_json_da, write_json_ihp]

/-- C7 counterexample: on a concrete v2+ engine, `eval` of an unknown
entrypoint fails with the "invalid entrypoint" configuration error, yet
the linear memory contents are not the same as before the call (the
serialized input was written at the input checkpoint before entrypoint
resolution). -/
theorem claim_C7_counterexample :
    (Opa.eval inertGuest (fun _ => some ([] : List Nat)) c7Opa ['z'] [49]).1 =
      Outcome.err "invalid entrypoint `z`" ∧
    ¬ ((Opa.eval inertGuest (fun _ => some ([] : List Nat)) c7Opa ['z'] [49]).2.1.guest.mem
        = c7Opa.guest.mem) := by
  decide

/-- C7 amended: when `eval` fails with a configuration error, the host
bookkeeping state (entrypoint table, ABI version, dataset address and
the two heap-pointer checkpoints) is unchanged — indeed no `eval` path
ever writes those fields; a "no data" failure additionally leaves the
linear memory contents untouched, and under v2+ it leaves the whole
engine unchanged; an unknown-entrypoint failure, however, may already
have written the serialized input into the scratch region and grown the
memory. -/
theorem claim_C7_amended {α : Type} (g : Guest) (dec : List Nat → Option (List α))
    (o : Opa) (e : List Char) (inp : List Nat) :
    ((Opa.eval g dec o e inp).2.1.entrypoints = o.entrypoints ∧
     (Opa.eval g dec o e inp).2.1.minorVersion = o.minorVersion ∧
     (Opa.eval g dec o e inp).2.1.dataHeapPtr = o.dataHeapPtr ∧
     (Opa.eval g dec o e inp).2.1.dataAddr = o.dataAddr ∧
     (Opa.eval g dec o e inp).2.1.inputHeapPtr = o.inputHeapPtr) ∧
    (o.dataAddr = none →
      (Opa.eval g dec o e inp).2.1.guest.mem = o.guest.mem) ∧
    (o.minorVersion ≥ 2 → o.dataAddr = none → (Opa.eval g dec o e inp).2.1 = o) := by
  refine ⟨eval_preserves_fields g dec o e inp, ?_, ?_⟩
  · intro hnone
    unfold Opa.eval
    split
    · unfold Opa.eval_once
      rw [hnone]
    · unfold Opa.eval_via_context EvalContext.create Opa.set_heap_ptr
      dsimp only
      rw [hnone]
  · intro hv hnone
    unfold Opa.eval
    rw [if_pos hv]
    unfold Opa.eval_once
    rw [hnone]

/-- C7 witness: a concrete v2+ engine with no dataset — the failed call
leaves the whole engine (fields and memory) unchanged. -/
theorem claim_C7_amended_witness :
    (Opa.eval inertGuest (fun _ => some ([] : List Nat)) c7bOpa ['a'] [49]).2.1.dataAddr =
      c7bOpa.dataAddr ∧
    (Opa.eval inertGuest (fun _ => some ([] : List Nat)) c7bOpa ['a'] [49]).2.1.guest.mem =
      c7bOpa.guest.mem ∧
    (Opa.eval inertGuest (fun _ => some ([] : List Nat)) c7bOpa ['a'] [49]).2.1 = c7bOpa :=
  ⟨(claim_C7_amended inertGuest (fun _ => some ([] : List Nat)) c7bOpa ['a'] [49]).1.2.2.2.1,
   (claim_C7_amended inertGuest (fun _ => some ([] : List Nat)) c7bOpa ['a'] [49]).2.1 rfl,
   (claim_C7_amended inertGuest (fun _ => some ([] : List Nat)) c7bOpa ['a'] [49]).2.2
     (by decide) rfl⟩

/-- The bundle entry loop processes an appended list by processing the
first part and, on success, continuing with the rest. -/
theorem process_entries_append {V : Type} (decM : List Nat → Except String Manifest)
    (decV : List Nat → Except String V) (acc : BundleAcc V) (xs ys : List TarEntry) :
    process_entries decM decV acc (xs ++ ys) =
      (match process_entries decM decV acc xs with
       | .ok a2 => process_entries decM decV a2 ys
       | .error e => .error e) := by
  induction xs generalizing acc with
  | nil => rfl
  | cons x t ih =>
    simp only [List.cons_append, process_entries]
    cases h : process_entry decM decV acc x with
    | ok a2 => simp [ih]
    | error e => simp

/-- C10: the error variants for the two JSON documents are swapped
relative to their names — a malformed `/.manifest` entry (reached with
no earlier failing entry) makes `Bundle::from_reader` return
`Error::InvalidData` ("invalid data file" prefix), and a malformed
`/data.json` entry makes it return `Error::InvalidManifest` ("invalid
manifest" prefix). -/
theorem claim_C10 :
    (∀ {V : Type} (decM : List Nat → Except String Manifest)
       (decV : List Nat → Except String V) (pre post : List TarEntry)
       (bytes : List Nat) (st : BundleAcc V) (e : String),
       process_entries decM decV ⟨none, none, [], []⟩ pre = .ok st →
       decM bytes = .error e →
       (Bundle.from_reader decM decV
           (pre ++ { path := "/.manifest".toList, bytes := bytes } :: post) =
         .error (BundleError.invalidData e) ∧
        (BundleError.invalidData e).display = "invalid data file: " ++ e)) ∧
    (∀ {V : Type} (decM : List Nat → Except String Manifest)
       (decV : List Nat → Except String V) (pre post : List TarEntry)
       (bytes : List Nat) (st : BundleAcc V) (e : String),
       process_entries decM decV ⟨none, none, [], []⟩ pre = .ok st →
       decV bytes = .error e →
       (Bundle.from_reader decM decV
           (pre ++ { path := "/data.json".toList, bytes := bytes } :: post) =
         .error (BundleError.invalidManifest e) ∧
        (BundleError.invalidManifest e).display = "invalid manifest: " ++ e)) := by
  constructor
  · intro V decM decV pre post bytes st e hpre hm
    refine ⟨?_, rfl⟩
    unfold Bundle.from_reader
    rw [process_entries_append, hpre]
    simp only [process_entries, process_entry, if_true]
    rw [hm]
  · intro V decM decV pre post bytes st e hpre hv
    refine ⟨?_, rfl⟩
    unfold Bundle.from_reader
    rw [process_entries_append, hpre]
    simp only [process_entries, process_entry, if_true]
    rw [if_neg (by decide), hv]

/-- C10 witness: concrete one-entry archives with failing decoders. -/
theorem claim_C10_witness :
    @Bundle.from_reader Unit (fun _ => Except.error "bad manifest json")
        (fun _ => Except.error "bad data json")
        [{ path := "/.manifest".toList, bytes := [1] }] =
      Except.error (BundleError.invalidData "bad manifest json") ∧
    @Bundle.from_reader Unit (fun _ => Except.error "bad manifest json")
        (fun _ => Except.error "bad data json")
        [{ path := "/data.json".toList, bytes := [2] }] =
      Except.error (BundleError.invalidManifest "bad data json") :=
  ⟨(claim_C10.1 (fun _ => Except.error "bad manifest json")
      (fun _ => (Except.error "bad data json" : Except String Unit)) [] [] [1]
      ⟨none, none, [], []⟩ "bad manifest json" rfl rfl).1,
   (claim_C10.2 (fun _ => Except.error "bad manifest json")
      (fun _ => (Except.error "bad data json" : Except String Unit)) [] [] [2]
      ⟨none, none, [], []⟩ "bad data json" rfl rfl).1⟩

end OpaRs
